import Mathlib

/-!
# Verification of the Avant-Gallery user routes

Shallow embedding of `app/routes/user_routes.js`: the user data model, the
route handlers (sign-up, sign-in, change-password, update-artist, sign-out,
show, index), and the serialization behaviour, together with theorems about
the claims of the specification.

External collaborators (the database, bcrypt, crypto) are modelled as
explicit parameters: the store is a list of user records, `bcrypt.hash` and
`bcrypt.compare` are function parameters, and `crypto.randomBytes` consumes
an explicit byte source.
-/

/-- A bearer-token value as stored on a user record.  Sign-in stores a
hex-encoded text token (`crypto.randomBytes(16).toString('hex')`); sign-out
stores the raw byte buffer (`crypto.randomBytes(16)`). -/
inductive TokenVal where
  | hex (s : String)
  | raw (bytes : List Nat)
deriving DecidableEq, Repr

/-- A user record of the credential store.  `name`, `email`, `location`,
`biography` and `token` may be absent (JS `undefined`); `hashedPassword` is
set on every creation path. -/
structure User where
  id : String
  name : Option String
  email : Option String
  hashedPassword : String
  token : Option TokenVal
  location : Option String
  biography : Option String
  artwork : List String
deriving DecidableEq, Repr

/-- Error kinds raised by the route logic (`lib/custom_errors`): bad
parameters, bad credentials, document not found. -/
inductive AppError where
  | badParams
  | badCredentials
  | notFound
deriving DecidableEq, Repr

/-- A failure escaping a handler's promise chain: either one of the custom
application errors, or a JS runtime `TypeError` (e.g. dereferencing a field
of `null`). -/
inductive Failure where
  | app (e : AppError)
  | typeError (msg : String)
deriving DecidableEq, Repr

/-- A serialized JSON field value. -/
inductive JVal where
  | str (s : String)
  | null
  | tokenV (t : TokenVal)
  | arr (xs : List String)
deriving DecidableEq, Repr

/-- Serialize an optional string field (absent becomes JSON null). -/
def optStrV : Option String → JVal
  | none => JVal.null
  | some s => JVal.str s

/-- Serialize an optional token field. -/
def optTokV : Option TokenVal → JVal
  | none => JVal.null
  | some t => JVal.tokenV t

/-- Modelled from the spec: the `transform` of the User model
(`app/models/user.js`, not present under `src/`), applied by `toObject`.
Per the spec and the route comments ("`hashedPassword` won't be send because
of the `transform` in the User model", "never serialized to API responses"),
it serializes every user field except `hashedPassword`, which is removed. -/
def toObject (u : User) : List (String × JVal) :=
  [("id", JVal.str u.id),
   ("email", optStrV u.email),
   ("name", optStrV u.name),
   ("location", optStrV u.location),
   ("biography", optStrV u.biography),
   ("token", optTokV u.token),
   ("artwork", JVal.arr u.artwork)]

/-- A JSON response body, per endpoint shape: `{user: ...}` for
sign-up/sign-in, `{artist: ...}` for show, `{artists: [...]}` for the index,
and an empty body for `res.sendStatus`. -/
inductive Body where
  | empty
  | user (fields : List (String × JVal))
  | artist (fields : List (String × JVal))
  | artists (objs : List (List (String × JVal)))
deriving DecidableEq, Repr

/-- An HTTP response: status code and JSON body. -/
structure Response where
  status : Nat
  body : Body
deriving DecidableEq, Repr

/-- JavaScript `||` defaulting on an optional string: absent (`undefined`)
and the empty string are falsy and select the default. -/
def jsOrStr : Option String → String → String
  | none, d => d
  | some s, d => if s = "" then d else s

/-- JavaScript falsiness of an optional string: `undefined` or `""`. -/
def jsFalsyStr : Option String → Bool
  | none => true
  | some s => s = ""

/-- `crypto.randomBytes n`: `n` bytes drawn from an explicit byte source. -/
def randomBytes (n : Nat) (src : Nat → Nat) : List Nat :=
  (List.range n).map (fun i => src i % 256)

/-- The sixteen lowercase hexadecimal digit characters. -/
def hexDigits : List Char := "0123456789abcdef".toList

/-- Encode one byte as two lowercase hex characters. -/
def byteToHex (b : Nat) : List Char :=
  [hexDigits.getD (b / 16) (Char.ofNat 48), hexDigits.getD (b % 16) (Char.ofNat 48)]

/-- `Buffer.toString('hex')`: lowercase hex encoding of a byte list. -/
def toHexStr (bs : List Nat) : String :=
  String.mk (bs.map byteToHex).flatten

/-- `User.findById`: first record of the store with the given id. -/
def findById (store : List User) (i : String) : Option User :=
  store.find? (fun u => u.id == i)

/-- `User.findOne({email})`: first record of the store whose `email` field
equals the supplied (possibly absent) value. -/
def findOne (store : List User) (email : Option String) : Option User :=
  store.find? (fun u => u.email == email)

/-- `user.save()`: persist a record back into the store by id. -/
def saveUser (store : List User) (u : User) : List User :=
  store.map (fun v => if v.id == u.id then u else v)

/-- Input of POST /sign-up: the fields of `req.body.credentials`. -/
structure SignUpCreds where
  name : Option String
  email : Option String
  password : Option String
  password_confirmation : Option String
  location : Option String
  biography : Option String
deriving DecidableEq, Repr

/-- Outcome of the sign-up handler: the response-or-error, the resulting
store, and the record passed to `User.create` when create was invoked. -/
structure SignUpOut where
  result : Except Failure Response
  store : List User
  created : Option User
deriving Repr

/-- POST /sign-up (lines 46-80).  The guard mirrors lines 52-54:
`!credentials || !credentials.password ||
credentials.password !== credentials.password_confirmation` (absent and
empty passwords are falsy; `!==` against an absent confirmation is true).
`hash` is `bcrypt.hash` applied at 10 salt rounds; `newId` is the id the
store assigns to the created document. -/
def signUp (hash : String → String) (store : List User) (newId : String)
    (creds : Option SignUpCreds) : SignUpOut :=
  match creds with
  | none => ⟨Except.error (Failure.app AppError.badParams), store, none⟩
  | some c =>
    match c.password with
    | none => ⟨Except.error (Failure.app AppError.badParams), store, none⟩
    | some p =>
      if p = "" || c.password_confirmation != some p then
        ⟨Except.error (Failure.app AppError.badParams), store, none⟩
      else
        let u : User :=
          { id := newId
            name := c.name
            email := c.email
            hashedPassword := hash p
            token := none
            location := some (jsOrStr c.location "No Location Given")
            biography := some (jsOrStr c.biography "No Biography Found")
            artwork := [] }
        ⟨Except.ok ⟨201, Body.user (toObject u)⟩, store ++ [u], some u⟩

/-- Input of POST /sign-in: `req.body.credentials`. -/
structure SignInCreds where
  email : Option String
  password : String
deriving DecidableEq, Repr

/-- POST /sign-in (lines 84-120).  `compare` is `bcrypt.compare`; `rnd` is
the byte source consumed by `crypto.randomBytes(16)`. -/
def signIn (compare : String → String → Bool) (rnd : Nat → Nat)
    (store : List User) (creds : SignInCreds) :
    Except Failure Response × List User :=
  match findOne store creds.email with
  | none => (Except.error (Failure.app AppError.badCredentials), store)
  | some user =>
    if compare creds.password user.hashedPassword then
      let token := toHexStr (randomBytes 16 rnd)
      let user' := { user with token := some (TokenVal.hex token) }
      (Except.ok ⟨201, Body.user (toObject user')⟩, saveUser store user')
    else
      (Except.error (Failure.app AppError.badCredentials), store)

/-- Input of PATCH /change-password: `req.body.passwords`. -/
structure Passwords where
  old : String
  new : Option String
deriving DecidableEq, Repr

/-- PATCH /change-password (lines 124-152).  `uid` is the authenticated
user's id (`req.user.id`).  When `findById` yields no record, line 131
dereferences `user.hashedPassword` on `null`: a runtime `TypeError`, not an
application error. -/
def changePassword (hash : String → String) (compare : String → String → Bool)
    (store : List User) (uid : String) (pw : Passwords) :
    Except Failure Response × List User :=
  match findById store uid with
  | none =>
    (Except.error (Failure.typeError "Cannot read properties of null (reading hashedPassword)"),
      store)
  | some user =>
    let correct := compare pw.old user.hashedPassword
    if jsFalsyStr pw.new || !correct then
      (Except.error (Failure.app AppError.badParams), store)
    else
      match pw.new with
      | none => (Except.error (Failure.app AppError.badParams), store)
      | some np =>
        let user' := { user with hashedPassword := hash np }
        (Except.ok ⟨204, Body.empty⟩, saveUser store user')

/-- Input of PATCH /update-artist: `req.body.credentials`. -/
structure ProfileCreds where
  name : Option String
  location : Option String
  biography : Option String
deriving DecidableEq, Repr

/-- The field computation and assignment of lines 168-181: each of the three
profile fields is defaulted to its sentinel string by `||` and then assigned
onto the record unconditionally. -/
def updateFields (creds : ProfileCreds) (u : User) : User :=
  { u with
    name := some (jsOrStr creds.name "Anonymous")
    location := some (jsOrStr creds.location "No Location Given")
    biography := some (jsOrStr creds.biography "No Biography Found") }

/-- PATCH /update-artist (lines 156-188).  When `findById` yields no record,
line 179 assigns `user.name` on `null`: a runtime `TypeError`. -/
def updateArtist (store : List User) (uid : String) (creds : ProfileCreds) :
    Except Failure Response × List User :=
  match findById store uid with
  | none =>
    (Except.error (Failure.typeError "Cannot set properties of null (setting name)"), store)
  | some user =>
    let user' := updateFields creds user
    (Except.ok ⟨204, Body.empty⟩, saveUser store user')

/-- DELETE /sign-out (lines 192-199).  `req.user` is the record resolved by
the bearer-token middleware; the new token is the raw byte buffer of
`crypto.randomBytes(16)`, not hex-encoded. -/
def signOut (rnd : Nat → Nat) (store : List User) (user : User) :
    Except Failure Response × List User :=
  let user' := { user with token := some (TokenVal.raw (randomBytes 16 rnd)) }
  (Except.ok ⟨204, Body.empty⟩, saveUser store user')

/-- Modelled from the spec: `handle404` from `lib/custom_errors` (not present
under `src/`), "used to send 404 when non-existant document is requested":
passes a found record through unchanged and raises the not-found error when
the lookup produced no record. -/
def handle404 (r : Option User) : Except Failure User :=
  match r with
  | none => Except.error (Failure.app AppError.notFound)
  | some u => Except.ok u

/-- GET /artists/:id (lines 202-211). -/
def showArtist (store : List User) (i : String) : Except Failure Response :=
  match handle404 (findById store i) with
  | Except.error e => Except.error e
  | Except.ok u => Except.ok ⟨200, Body.artist (toObject u)⟩

/-- GET /view-artists (lines 34-42). -/
def viewArtists (store : List User) : Except Failure Response :=
  Except.ok ⟨200, Body.artists (store.map toObject)⟩

/-! ## Serialization predicates and concrete fixtures -/

/-- A serialized object omits the `hashedPassword` key. -/
def objOmitsHash (fields : List (String × JVal)) : Bool :=
  fields.all (fun kv => kv.1 != "hashedPassword")

/-- Every user object occurring in a response body omits `hashedPassword`. -/
def bodyOmitsHash : Body → Bool
  | Body.empty => true
  | Body.user f => objOmitsHash f
  | Body.artist f => objOmitsHash f
  | Body.artists fs => fs.all objOmitsHash

theorem objOmitsHash_toObject (u : User) : objOmitsHash (toObject u) = true := by
  simp [objOmitsHash, toObject]

/-- A concrete stand-in for `bcrypt.hash` at fixed salt. -/
def demoHash (p : String) : String := String.append "bhash:" p

/-- A concrete stand-in for `bcrypt.compare` matching `demoHash`. -/
def demoCompare (p h : String) : Bool := h == String.append "bhash:" p

/-- A concrete byte source for `crypto.randomBytes`. -/
def demoRnd (i : Nat) : Nat := i + 7

/-- A concrete stored user record. -/
def demoUser : User :=
  { id := "u1"
    name := some "Ann"
    email := some "x@y.com"
    hashedPassword := demoHash "secret"
    token := some (TokenVal.hex "deadbeef")
    location := some "Paris"
    biography := some "painter"
    artwork := [] }

/-- A concrete one-record store. -/
def demoStore : List User := [demoUser]

/-! ## Claim theorems -/

/-- C9: update-profile is idempotent: applying the update-artist field
computation and assignment twice with the same input yields the same stored
record (in particular the same name, location and biography) as applying it
once. -/
theorem updateFields_idempotent (creds : ProfileCreds) (u : User) :
    updateFields creds (updateFields creds u) = updateFields creds u := rfl

/-- C1: every successful response of sign-up, sign-in, fetch-by-id and
fetch-all serializes users without the `hashedPassword` field. -/
theorem serialized_user_omits_hashedPassword :
    (∀ hash store newId creds r,
        (signUp hash store newId creds).result = Except.ok r →
        bodyOmitsHash r.body = true) ∧
    (∀ compare rnd store creds r,
        (signIn compare rnd store creds).1 = Except.ok r →
        bodyOmitsHash r.body = true) ∧
    (∀ store i r, showArtist store i = Except.ok r → bodyOmitsHash r.body = true) ∧
    (∀ store r, viewArtists store = Except.ok r → bodyOmitsHash r.body = true) := by
  refine ⟨?_, ?_, ?_, ?_⟩
  · intro hash store newId creds r h
    unfold signUp at h
    rcases creds with _ | c
    · simp at h
    · rcases hp : c.password with _ | p
      · simp [hp] at h
      · simp only [hp] at h
        split at h
        · simp at h
        · simp only [Except.ok.injEq] at h
          subst h
          simp [bodyOmitsHash, objOmitsHash_toObject]
  · intro compare rnd store creds r h
    unfold signIn at h
    rcases hf : findOne store creds.email with _ | u
    · simp [hf] at h
    · simp only [hf] at h
      split at h
      · simp only [Except.ok.injEq] at h
        subst h
        simp [bodyOmitsHash, objOmitsHash_toObject]
      · simp at h
  · intro store i r h
    unfold showArtist handle404 at h
    rcases hf : findById store i with _ | u
    · simp [hf] at h
    · simp only [hf, Except.ok.injEq] at h
      subst h
      simp [bodyOmitsHash, objOmitsHash_toObject]
  · intro store r h
    unfold viewArtists at h
    simp only [Except.ok.injEq] at h
    subst h
    simp only [bodyOmitsHash, List.all_eq_true]
    intro f hf
    rcases List.mem_map.mp hf with ⟨u, _, rfl⟩
    exact objOmitsHash_toObject u

/-- C1 witness: the show endpoint on a concrete store succeeds and its body
omits `hashedPassword`. -/
theorem serialized_user_omits_hashedPassword_witness :
    bodyOmitsHash (Response.mk 200 (Body.artist (toObject demoUser))).body = true :=
  serialized_user_omits_hashedPassword.2.2.1 demoStore "u1"
    ⟨200, Body.artist (toObject demoUser)⟩ rfl

/-- C2: a sign-up request whose credentials are absent, whose password is
missing or empty, or whose password differs from `password_confirmation`
fails with `BadParamsError`, leaves the store unchanged, and never invokes
`User.create`. -/
theorem signUp_invalid_rejected :
    ∀ hash store newId creds,
      (creds = none ∨
        ∃ c, creds = some c ∧
          (c.password = none ∨ c.password = some "" ∨
            c.password ≠ c.password_confirmation)) →
      (signUp hash store newId creds).result =
          Except.error (Failure.app AppError.badParams) ∧
      (signUp hash store newId creds).created = none ∧
      (signUp hash store newId creds).store = store := by
  intro hash store newId creds hbad
  rcases hbad with rfl | ⟨c, rfl, hc⟩
  · exact ⟨rfl, rfl, rfl⟩
  · rcases hp : c.password with _ | p
    · simp [signUp, hp]
    · rcases hc with hnone | hempty | hne
      · simp [hp] at hnone
      · rw [hp] at hempty
        simp only [Option.some.injEq] at hempty
        subst hempty
        simp [signUp, hp]
      · rw [hp] at hne
        have hpc : c.password_confirmation ≠ some p := fun hcc => hne hcc.symm
        have : (p = "" || c.password_confirmation != some p) = true := by
          simp [hpc]
        simp [signUp, hp, this]

/-- C2 witness: a concrete sign-up with mismatching password and
confirmation is rejected with `BadParamsError`, creating nothing. -/
theorem signUp_invalid_rejected_witness :
    (signUp demoHash [] "id1"
        (some ⟨none, some "x@y.com", some "a", some "b", none, none⟩)).result =
        Except.error (Failure.app AppError.badParams) ∧
    (signUp demoHash [] "id1"
        (some ⟨none, some "x@y.com", some "a", some "b", none, none⟩)).created = none ∧
    (signUp demoHash [] "id1"
        (some ⟨none, some "x@y.com", some "a", some "b", none, none⟩)).store = [] :=
  signUp_invalid_rejected demoHash [] "id1"
    (some ⟨none, some "x@y.com", some "a", some "b", none, none⟩)
    (Or.inr ⟨_, rfl, Or.inr (Or.inr (by decide))⟩)

/-- C3: a sign-in whose email matches no record and a sign-in whose password
fails the hash comparison both fail with the identical
`BadCredentialsError` value (hence the same kind, status and message): the
two causes are indistinguishable to the caller. -/
theorem signIn_badCredentials_indistinguishable :
    ∀ compare rnd store creds,
      (findOne store creds.email = none →
        (signIn compare rnd store creds).1 =
          Except.error (Failure.app AppError.badCredentials)) ∧
      (∀ u, findOne store creds.email = some u →
        compare creds.password u.hashedPassword = false →
        (signIn compare rnd store creds).1 =
          Except.error (Failure.app AppError.badCredentials)) := by
  intro compare rnd store creds
  constructor
  · intro hf
    unfold signIn
    rw [hf]
  · intro u hf hcmp
    unfold signIn
    rw [hf]
    simp [hcmp]

/-- C3 witness: on a concrete store, an unknown email and a wrong password
produce the same `BadCredentialsError` result. -/
theorem signIn_badCredentials_indistinguishable_witness :
    (signIn demoCompare demoRnd demoStore ⟨some "nobody@z", "secret"⟩).1 =
        Except.error (Failure.app AppError.badCredentials) ∧
    (signIn demoCompare demoRnd demoStore ⟨some "x@y.com", "wrong"⟩).1 =
        Except.error (Failure.app AppError.badCredentials) :=
  ⟨(signIn_badCredentials_indistinguishable demoCompare demoRnd demoStore
      ⟨some "nobody@z", "secret"⟩).1 (by decide),
   (signIn_badCredentials_indistinguishable demoCompare demoRnd demoStore
      ⟨some "x@y.com", "wrong"⟩).2 demoUser (by decide) (by decide)⟩

theorem randomBytes_length (n : Nat) (src : Nat → Nat) :
    (randomBytes n src).length = n := by
  simp [randomBytes]

theorem getD_hexDigits_mem (i : Nat) :
    hexDigits.getD i (Char.ofNat 48) ∈ hexDigits := by
  by_cases h : i < hexDigits.length
  · rw [List.getD_eq_getElem hexDigits (Char.ofNat 48) h]
    exact List.getElem_mem h
  · rw [List.getD_eq_default hexDigits (Char.ofNat 48) (Nat.le_of_not_lt h)]
    decide

theorem toHexStr_length (bs : List Nat) :
    (toHexStr bs).length = 2 * bs.length := by
  induction bs with
  | nil => rfl
  | cons b rest ih =>
    simp only [toHexStr, String.length, String.mk] at ih ⊢
    simp only [List.map_cons, List.flatten_cons, List.length_append, ih,
      byteToHex, List.length_cons, List.length_nil, List.length_map]
    ring

theorem toHexStr_chars_lowercase_hex (bs : List Nat) :
    ∀ ch ∈ (toHexStr bs).toList, ch ∈ hexDigits := by
  intro ch hch
  have hmem : ch ∈ (bs.map byteToHex).flatten := hch
  rcases List.mem_flatten.mp hmem with ⟨l, hl, hcl⟩
  rcases List.mem_map.mp hl with ⟨b, _, rfl⟩
  simp only [byteToHex, List.mem_cons, List.not_mem_nil, or_false] at hcl
  rcases hcl with rfl | rfl
  · exact getD_hexDigits_mem (b / 16)
  · exact getD_hexDigits_mem (b % 16)

/-- C4: a sign-in whose email resolves to a record and whose password
matches the stored hash issues a fresh token: the hex encoding of 16 random
bytes (32 characters, all lowercase hex digits), overwrites the user's
token field with it, persists the record, and responds 201 with the token
included in the serialized user. -/
theorem signIn_success_issues_hex_token :
    ∀ compare rnd store creds u,
      findOne store creds.email = some u →
      compare creds.password u.hashedPassword = true →
      (signIn compare rnd store creds).1 =
        Except.ok ⟨201, Body.user (toObject
          { u with token := some (TokenVal.hex (toHexStr (randomBytes 16 rnd))) })⟩ ∧
      (signIn compare rnd store creds).2 =
        saveUser store
          { u with token := some (TokenVal.hex (toHexStr (randomBytes 16 rnd))) } ∧
      ("token", JVal.tokenV (TokenVal.hex (toHexStr (randomBytes 16 rnd)))) ∈
        toObject
          { u with token := some (TokenVal.hex (toHexStr (randomBytes 16 rnd))) } ∧
      (randomBytes 16 rnd).length = 16 ∧
      (toHexStr (randomBytes 16 rnd)).length = 32 ∧
      (∀ ch ∈ (toHexStr (randomBytes 16 rnd)).toList, ch ∈ hexDigits) := by
  intro compare rnd store creds u hf hcmp
  refine ⟨?_, ?_, ?_, randomBytes_length 16 rnd, ?_, toHexStr_chars_lowercase_hex _⟩
  · unfold signIn
    rw [hf]
    simp [hcmp]
  · unfold signIn
    rw [hf]
    simp [hcmp]
  · simp [toObject, optTokV]
  · rw [toHexStr_length, randomBytes_length]

/-- C4 witness: a concrete successful sign-in issues the 32-character
lowercase-hex token, stores it, and responds 201. -/
theorem signIn_success_issues_hex_token_witness :
    (signIn demoCompare demoRnd demoStore ⟨some "x@y.com", "secret"⟩).1 =
      Except.ok ⟨201, Body.user (toObject
        { demoUser with
          token := some (TokenVal.hex (toHexStr (randomBytes 16 demoRnd))) })⟩ ∧
    (toHexStr (randomBytes 16 demoRnd)).length = 32 :=
  ⟨(signIn_success_issues_hex_token demoCompare demoRnd demoStore
      ⟨some "x@y.com", "secret"⟩ demoUser (by decide) (by decide)).1,
   (signIn_success_issues_hex_token demoCompare demoRnd demoStore
      ⟨some "x@y.com", "secret"⟩ demoUser (by decide) (by decide)).2.2.2.2.1⟩

/-- C5: a change-password request whose new password is missing or empty, or
whose old password fails the hash comparison, fails with the same
`BadParamsError` for both causes and leaves the store (in particular the
stored `hashedPassword`) unchanged. -/
theorem changePassword_invalid_rejected :
    ∀ hash compare store uid pw u,
      findById store uid = some u →
      (jsFalsyStr pw.new = true ∨ compare pw.old u.hashedPassword = false) →
      (changePassword hash compare store uid pw).1 =
          Except.error (Failure.app AppError.badParams) ∧
      (changePassword hash compare store uid pw).2 = store := by
  intro hash compare store uid pw u hf hbad
  unfold changePassword
  rw [hf]
  rcases hbad with hnew | hold
  · simp [hnew]
  · simp [hold]

/-- C5 witness: with the correct old password and an empty new password, the
concrete request is rejected with `BadParamsError` and the store is
unchanged (the spec's change-password scenario). -/
theorem changePassword_invalid_rejected_witness :
    (changePassword demoHash demoCompare demoStore "u1"
        ⟨"secret", some ""⟩).1 = Except.error (Failure.app AppError.badParams) ∧
    (changePassword demoHash demoCompare demoStore "u1"
        ⟨"secret", some ""⟩).2 = demoStore :=
  changePassword_invalid_rejected demoHash demoCompare demoStore "u1"
    ⟨"secret", some ""⟩ demoUser (by decide) (Or.inl (by decide))

/-- Sign-up credentials with every optional profile field absent and a valid
matching password, used as the C6 counterexample input. -/
def cexCreds : SignUpCreds :=
  ⟨none, some "x@y.com", some "secret", some "secret", none, none⟩

/-- The record the sign-up handler creates from `cexCreds`. -/
def cexUser : User :=
  { id := "id1"
    name := none
    email := some "x@y.com"
    hashedPassword := demoHash "secret"
    token := none
    location := some "No Location Given"
    biography := some "No Biography Found"
    artwork := [] }

/-- C6 counterexample: a successful sign-up with `name` absent stores the
record with `name` absent, not the sentinel "Anonymous": the sign-up handler
defaults only `location` and `biography`. -/
theorem signUp_name_not_defaulted_cex :
    (signUp demoHash [] "id1" (some cexCreds)).result =
        Except.ok ⟨201, Body.user (toObject cexUser)⟩ ∧
    (signUp demoHash [] "id1" (some cexCreds)).created = some cexUser ∧
    cexUser.name ≠ some "Anonymous" :=
  ⟨rfl, rfl, by decide⟩

/-- C6 amended: on a successful sign-up, `location` and `biography` default
to their sentinel strings when absent, while `name` is stored exactly as
supplied (absent stays absent). -/
theorem signUp_optional_field_defaults :
    ∀ hash store newId c p,
      c.password = some p → p ≠ "" → c.password_confirmation = some p →
      ((signUp hash store newId (some c)).created.map User.name = some c.name) ∧
      (c.location = none →
        (signUp hash store newId (some c)).created.map User.location =
          some (some "No Location Given")) ∧
      (c.biography = none →
        (signUp hash store newId (some c)).created.map User.biography =
          some (some "No Biography Found")) := by
  intro hash store newId c p hp hpne hpc
  have hguard : (p = "" || c.password_confirmation != some p) = false := by
    simp [hpne, hpc]
  refine ⟨?_, ?_, ?_⟩
  · simp [signUp, hp, hguard]
  · intro hl
    simp [signUp, hp, hguard, hl, jsOrStr]
  · intro hb
    simp [signUp, hp, hguard, hb, jsOrStr]

/-- Sign-up credentials with a name supplied and location/biography absent,
used for the C6 witness. -/
def wCreds : SignUpCreds :=
  ⟨some "Bo", some "e@f", some "secret", some "secret", none, none⟩

/-- C6 witness: a concrete successful sign-up stores the supplied name and
the two sentinels for the absent optional fields. -/
theorem signUp_optional_field_defaults_witness :
    ((signUp demoHash [] "id9" (some wCreds)).created.map User.name =
      some (some "Bo")) ∧
    ((signUp demoHash [] "id9" (some wCreds)).created.map User.location =
      some (some "No Location Given")) ∧
    ((signUp demoHash [] "id9" (some wCreds)).created.map User.biography =
      some (some "No Biography Found")) :=
  ⟨(signUp_optional_field_defaults demoHash [] "id9" wCreds "secret" rfl
      (by decide) rfl).1,
   (signUp_optional_field_defaults demoHash [] "id9" wCreds "secret" rfl
      (by decide) rfl).2.1 rfl,
   (signUp_optional_field_defaults demoHash [] "id9" wCreds "secret" rfl
      (by decide) rfl).2.2 rfl⟩

/-- C7: a successful update-artist request overwrites each omitted profile
field with its sentinel default, whatever value the record previously held,
and persists the result with status 204. -/
theorem updateArtist_overwrites_omitted_with_sentinels :
    ∀ store uid creds u,
      findById store uid = some u →
      (updateArtist store uid creds).1 = Except.ok ⟨204, Body.empty⟩ ∧
      (updateArtist store uid creds).2 = saveUser store (updateFields creds u) ∧
      (creds.name = none → (updateFields creds u).name = some "Anonymous") ∧
      (creds.location = none →
        (updateFields creds u).location = some "No Location Given") ∧
      (creds.biography = none →
        (updateFields creds u).biography = some "No Biography Found") := by
  intro store uid creds u hf
  unfold updateArtist
  rw [hf]
  refine ⟨rfl, rfl, ?_, ?_, ?_⟩
  · intro hn
    simp [updateFields, hn, jsOrStr]
  · intro hl
    simp [updateFields, hl, jsOrStr]
  · intro hb
    simp [updateFields, hb, jsOrStr]

/-- C7 witness: updating the concrete stored artist (which holds non-default
name, location and biography) with an empty input overwrites all three
fields with their sentinels and responds 204. -/
theorem updateArtist_overwrites_omitted_witness :
    (updateArtist demoStore "u1" ⟨none, none, none⟩).1 =
        Except.ok ⟨204, Body.empty⟩ ∧
    (updateFields ⟨none, none, none⟩ demoUser).name = some "Anonymous" ∧
    (updateFields ⟨none, none, none⟩ demoUser).location =
      some "No Location Given" ∧
    (updateFields ⟨none, none, none⟩ demoUser).biography =
      some "No Biography Found" :=
  ⟨(updateArtist_overwrites_omitted_with_sentinels demoStore "u1"
      ⟨none, none, none⟩ demoUser (by decide)).1,
   (updateArtist_overwrites_omitted_with_sentinels demoStore "u1"
      ⟨none, none, none⟩ demoUser (by decide)).2.2.1 rfl,
   (updateArtist_overwrites_omitted_with_sentinels demoStore "u1"
      ⟨none, none, none⟩ demoUser (by decide)).2.2.2.1 rfl,
   (updateArtist_overwrites_omitted_with_sentinels demoStore "u1"
      ⟨none, none, none⟩ demoUser (by decide)).2.2.2.2 rfl⟩

/-- C8: sign-out replaces the authenticated user's token with the raw byte
buffer of 16 fresh random bytes (not hex-encoded), persists the record, and
responds 204; whenever the old token was a hex text token (as sign-in
issues), the new stored token differs from it. -/
theorem signOut_rotates_token :
    ∀ rnd store u,
      (signOut rnd store u).1 = Except.ok ⟨204, Body.empty⟩ ∧
      (signOut rnd store u).2 =
        saveUser store
          { u with token := some (TokenVal.raw (randomBytes 16 rnd)) } ∧
      (randomBytes 16 rnd).length = 16 ∧
      (∀ s, u.token = some (TokenVal.hex s) →
        some (TokenVal.raw (randomBytes 16 rnd)) ≠ u.token) := by
  intro rnd store u
  refine ⟨rfl, rfl, randomBytes_length 16 rnd, ?_⟩
  intro s hs
  rw [hs]
  simp

/-- C8 witness: signing out the concrete user (whose token is a hex text
token) responds 204 and the new stored raw token differs from the old one. -/
theorem signOut_rotates_token_witness :
    (signOut demoRnd demoStore demoUser).1 = Except.ok ⟨204, Body.empty⟩ ∧
    some (TokenVal.raw (randomBytes 16 demoRnd)) ≠ demoUser.token :=
  ⟨(signOut_rotates_token demoRnd demoStore demoUser).1,
   (signOut_rotates_token demoRnd demoStore demoUser).2.2.2 "deadbeef" rfl⟩

/-- C10: when the by-id lookup yields no record, change-password and
update-artist fail with a runtime `TypeError` (they dereference the lookup
result without a null check), whereas fetch-by-id routes the miss through
`handle404` and fails with the not-found application error. -/
theorem missing_record_typeError_vs_notFound :
    ∀ hash compare store uid pw creds,
      findById store uid = none →
      (changePassword hash compare store uid pw).1 =
        Except.error
          (Failure.typeError
            "Cannot read properties of null (reading hashedPassword)") ∧
      (updateArtist store uid creds).1 =
        Except.error
          (Failure.typeError "Cannot set properties of null (setting name)") ∧
      showArtist store uid = Except.error (Failure.app AppError.notFound) := by
  intro hash compare store uid pw creds hf
  refine ⟨?_, ?_, ?_⟩
  · unfold changePassword
    rw [hf]
  · unfold updateArtist
    rw [hf]
  · unfold showArtist handle404
    rw [hf]

/-- C10 witness: on the concrete store, an id with no record makes
change-password and update-artist fail with a `TypeError` and fetch-by-id
fail with the not-found error. -/
theorem missing_record_typeError_vs_notFound_witness :
    (changePassword demoHash demoCompare demoStore "ghost"
        ⟨"secret", some "next"⟩).1 =
      Except.error
        (Failure.typeError
          "Cannot read properties of null (reading hashedPassword)") ∧
    (updateArtist demoStore "ghost" ⟨none, none, none⟩).1 =
      Except.error
        (Failure.typeError "Cannot set properties of null (setting name)") ∧
    showArtist demoStore "ghost" = Except.error (Failure.app AppError.notFound) :=
  missing_record_typeError_vs_notFound demoHash demoCompare demoStore "ghost"
    ⟨"secret", some "next"⟩ ⟨none, none, none⟩ (by decide)
